import Mathlib

/-!
Verification of the ATS-Resume-Scanner analysis layer (`app.py`).

The repository's `app.py` imports five analysis functions from
`advanced_resume_analyzer.py`, a file that is not part of the repository
source; those functions are kept abstract as a bundle of total functions
(`AnalyzerFuns`), and the code of `app.py` — `allowed_file`, the empty-text
rejection in `analyze_resume`, `perform_comprehensive_analysis`, and
`generate_recommendations` — is embedded faithfully below.  Python floats
are modelled as exact rationals, Python dicts as association lists whose
list order models the dict's insertion/iteration order.
-/

set_option maxHeartbeats 1000000

/-- Python's `round` to an integer: round-half-to-even (banker's rounding),
as performed by CPython's builtin `round`. -/
def pyRoundInt (x : ℚ) : ℤ :=
  if x - (⌊x⌋ : ℚ) < 1/2 then ⌊x⌋
  else if 1/2 < x - (⌊x⌋ : ℚ) then ⌊x⌋ + 1
  else if ⌊x⌋ % 2 = 0 then ⌊x⌋ else ⌊x⌋ + 1

/-- Python's `round(x, 1)`: round to one decimal place, half to even. -/
def pyRound1 (x : ℚ) : ℚ := (pyRoundInt (10 * x) : ℚ) / 10

/-! ## Python string primitives (modelled structurally over `List Char`) -/

/-- Python `pattern in s` for a single-character pattern, as in `'.' in filename`. -/
def pyContains (s : String) (c : Char) : Bool := s.data.contains c

/-- Python `s.lower()` (ASCII range, which covers the extensions compared here). -/
def pyLower (s : String) : String := ⟨s.data.map Char.toLower⟩

/-- Python `s.rsplit('.', 1)[1]`: the substring after the last `'.'`.
Total function; in `allowed_file` it is only reached when `s` contains a dot,
thanks to the short-circuit `and` of the source. -/
def rsplitDot1Tail (s : String) : String :=
  ⟨(s.data.reverse.takeWhile (fun c => c != '.')).reverse⟩

/-- Does the list start with the given pattern? -/
def listStartsWith : List Char → List Char → Bool
  | _, [] => true
  | [], _ :: _ => false
  | c :: cs, p :: ps => c == p && listStartsWith cs ps

/-- Fuel-indexed worker for Python `s.replace(old, new)`: replace non-overlapping
occurrences left to right.  Fuel is the length of the list, enough because each
step consumes at least one character (patterns used here are non-empty). -/
def replaceLoop (pat rep : List Char) : Nat → List Char → List Char
  | 0, l => l
  | _ + 1, [] => []
  | fuel + 1, c :: cs =>
    if listStartsWith (c :: cs) pat then rep ++ replaceLoop pat rep fuel ((c :: cs).drop pat.length)
    else c :: replaceLoop pat rep fuel cs

/-- Python `s.replace(pat, rep)` (for a non-empty pattern, the only use here). -/
def pyReplace (s pat rep : String) : String :=
  if pat = "" then s else ⟨replaceLoop pat.data rep.data s.data.length s.data⟩

/-- Word counter for Python `len(s.split())`: number of maximal runs of
non-whitespace characters. -/
def wordCountLoop : List Char → Bool → Nat
  | [], _ => 0
  | c :: cs, inWord =>
    if c.isWhitespace then wordCountLoop cs false
    else (if inWord then 0 else 1) + wordCountLoop cs true

/-- `len(resume_text.split())` from line 147 of `app.py`. -/
def pyWordCount (s : String) : Nat := wordCountLoop s.data false

/-! ## `allowed_file` (app.py lines 33, 48-49) -/

/-- `ALLOWED_EXTENSIONS = {'pdf', 'txt'}` (app.py line 33). -/
def ALLOWED_EXTENSIONS : List String := ["pdf", "txt"]

/-- `allowed_file` (app.py lines 48-49):
`'.' in filename and filename.rsplit('.', 1)[1].lower() in ALLOWED_EXTENSIONS`. -/
def allowed_file (filename : String) : Bool :=
  pyContains filename '.' && ALLOWED_EXTENSIONS.contains (pyLower (rsplitDot1Tail filename))

/-- The acceptance condition as worded by the claim: the filename contains a
dot, and the substring after its last dot, lowercased, is `pdf` or `txt`. -/
def allowedFileClaim (filename : String) : Prop :=
  pyContains filename '.' = true ∧
    (pyLower (rsplitDot1Tail filename) = "pdf" ∨ pyLower (rsplitDot1Tail filename) = "txt")

/-! ## Data model of the analysis values -/

/-- One entry of the `job_matches` dict: the per-profile match data consumed by
`app.py` (`score`, `missing_required`, `missing_preferred` are the fields it
reads; the matched lists are carried along as in the data model). -/
structure JobMatchData where
  score : ℚ
  matched_required : List String
  missing_required : List String
  matched_preferred : List String
  missing_preferred : List String
deriving DecidableEq

/-- One entry of `section_analyses`: the fields of a section analysis that
`generate_recommendations` reads (`issues`, `improvement_priority`). -/
structure SectionAnalysisData where
  issues : List String
  improvement_priority : String
deriving DecidableEq

/-- The three recommendation buckets returned by `generate_recommendations`. -/
structure Recommendations where
  critical : List String
  high : List String
  medium : List String
deriving DecidableEq

/-- Values of the JSON-compatible dict returned by
`perform_comprehensive_analysis` (app.py lines 140-153). -/
inductive PyValue where
  | str : String → PyValue
  | num : ℚ → PyValue
  | natv : Nat → PyValue
  | jobs : List (String × JobMatchData) → PyValue
  | secs : List (String × SectionAnalysisData) → PyValue
  | breakdown : List (String × ℚ) → PyValue
  | recs : Recommendations → PyValue
  | keywords : List (String × List String) → PyValue
deriving DecidableEq

/-! ## Python `max(items, key=...)` -/

/-- One step of Python's `max` scan: replace the current best only on a
strictly greater key, so the earliest maximal element is kept. -/
def pyMaxStep (k : α → ℚ) (b y : α) : α := if k b < k y then y else b

/-- Python `max(l, key=k)`: `none` models the `ValueError` on an empty
sequence (app.py lines 127 and 164 call it on `job_matches.items()`). -/
def pyMaxBy (k : α → ℚ) : List α → Option α
  | [] => none
  | x :: xs => some (xs.foldl (pyMaxStep k) x)

/-- Does `p` dominate (by key) every element of `l`? -/
def domAll (k : α → ℚ) (l : List α) (p : α) : Bool :=
  l.all (fun q => decide (k q ≤ k p))

/-- Specification-side argmax: the first element of the list whose key is
greater than or equal to every key in the list (first-declared tie-break). -/
def firstMaxBy (k : α → ℚ) (l : List α) : Option α :=
  l.find? (domAll k l)

/-! ## `generate_recommendations` (app.py lines 155-205) -/

/-- The fixed-offset label stripping of app.py line 178:
`issue.replace('❌ CRITICAL: ', '').replace('🚨 CRITICAL: ', '')`. -/
def stripCriticalLabel (s : String) : String :=
  pyReplace (pyReplace s "❌ CRITICAL: " "") "🚨 CRITICAL: " ""

/-- The critical missing-required-keywords message (app.py line 170). -/
def missingRequiredMsg (bmd : JobMatchData) : String :=
  "🚨 Add missing critical keywords: " ++ String.intercalate ", " (bmd.missing_required.take 3)

/-- The per-section critical fix message (app.py lines 174-179): emitted for a
section whose priority is `CRITICAL` and whose issues list is non-empty. -/
def sectionCriticalMsg (p : String × SectionAnalysisData) : Option String :=
  if p.2.improvement_priority = "CRITICAL" then
    match p.2.issues with
    | [] => none
    | issue0 :: _ => some ("🚨 Fix " ++ p.1 ++ " section: " ++ stripCriticalLabel issue0)
  else none

/-- The body of `generate_recommendations` once the best match is selected
(app.py lines 157-205, with `bmd = best_match[1]`). -/
def buildRecommendations (bmd : JobMatchData)
    (section_analyses : List (String × SectionAnalysisData)) (ats_score : ℚ) :
    Recommendations where
  critical :=
    (if bmd.missing_required = [] then [] else [missingRequiredMsg bmd]) ++
      section_analyses.filterMap sectionCriticalMsg
  high :=
    (if ats_score < 70 then ["⚡ Increase technical keyword density throughout resume"] else []) ++
      ["📈 Add more quantifiable metrics and achievements",
       "💪 Increase action verb usage in experience descriptions",
       "🎯 Expand technical skills section with relevant technologies"] ++
      (if bmd.missing_preferred = [] then []
       else ["⭐ Consider adding preferred keywords: " ++
              String.intercalate ", " (bmd.missing_preferred.take 3)])
  medium :=
    ["✨ Optimize formatting and visual consistency",
     "🔗 Add portfolio/GitHub links if missing",
     "📚 Include relevant certifications or recent courses",
     "🎨 Tailor summary/objective for target roles",
     "📊 Ensure consistent bullet point formatting"]

/-- `generate_recommendations` (app.py lines 155-205).  The `max` on line 164
raises `ValueError` on an empty `job_matches`, modelled by `none`. -/
def generate_recommendations (job_matches : List (String × JobMatchData))
    (section_analyses : List (String × SectionAnalysisData)) (ats_score : ℚ) :
    Option Recommendations :=
  (pyMaxBy (fun x => x.2.score) job_matches).map fun best_match =>
    buildRecommendations best_match.2 section_analyses ats_score

/-! ## `perform_comprehensive_analysis` (app.py lines 111-153) -/

/-- The five analysis functions imported from `advanced_resume_analyzer.py`
(app.py lines 16-25).  Modelled from the spec: that module is not part of the
repository source, so the functions are kept abstract as total functions over
the data model (spec §4.2-§4.6 describes them as deterministic total
functions); every theorem below quantifies over this bundle. -/
structure AnalyzerFuns where
  parse_resume_sections : String → List (String × String)
  analyze_technical_keywords : String → List (String × List String)
  calculate_job_profile_match : String → List (String × String) → List (String × JobMatchData)
  calculate_comprehensive_ats_score :
    String → List (String × String) → List (String × JobMatchData) → ℚ × List (String × ℚ)
  analyze_section_details : String → String → SectionAnalysisData

/-- `job_matches` as computed on app.py lines 115 and 121. -/
def jobMatchesOf (A : AnalyzerFuns) (t : String) : List (String × JobMatchData) :=
  A.calculate_job_profile_match t (A.parse_resume_sections t)

/-- `ats_score, score_breakdown` as computed on app.py line 124. -/
def atsOf (A : AnalyzerFuns) (t : String) : ℚ × List (String × ℚ) :=
  A.calculate_comprehensive_ats_score t (A.parse_resume_sections t) (jobMatchesOf A t)

/-- `section_analyses` as computed on app.py lines 130-132: one analysis per
parsed section, in the sections dict's iteration order. -/
def sectionAnalyses (A : AnalyzerFuns) (t : String) : List (String × SectionAnalysisData) :=
  (A.parse_resume_sections t).map (fun p => (p.1, A.analyze_section_details p.1 p.2))

/-- The result dict literal of app.py lines 140-153, given the selected best
match and the generated recommendations. -/
def resultDict (A : AnalyzerFuns) (t fid : String) (best_match : String × JobMatchData)
    (recommendations : Recommendations) : List (String × PyValue) :=
  [("report_id", PyValue.str fid),
   ("ats_score", PyValue.num (pyRound1 (atsOf A t).1)),
   ("best_job_match", PyValue.str best_match.1),
   ("match_percentage", PyValue.num (pyRound1 best_match.2.score)),
   ("tech_keywords_found",
     PyValue.natv (((A.analyze_technical_keywords t).map (fun p => p.2.length)).sum)),
   ("improvement_potential", PyValue.num (pyRound1 (min ((atsOf A t).1 + 15) 95))),
   ("total_words", PyValue.natv (pyWordCount t)),
   ("job_matches", PyValue.jobs (jobMatchesOf A t)),
   ("sections", PyValue.secs (sectionAnalyses A t)),
   ("score_breakdown", PyValue.breakdown (atsOf A t).2),
   ("recommendations", PyValue.recs recommendations),
   ("tech_keywords", PyValue.keywords (A.analyze_technical_keywords t))]

/-- `perform_comprehensive_analysis` (app.py lines 111-153).  `none` models a
propagated exception (the `ValueError` of `max` on line 127 or 164 for empty
`job_matches`), which the caller's `except` turns into an error response. -/
def perform_comprehensive_analysis (A : AnalyzerFuns) (resume_text file_id : String) :
    Option (List (String × PyValue)) :=
  (pyMaxBy (fun x => x.2.score) (jobMatchesOf A resume_text)).bind fun best_match =>
    (generate_recommendations (jobMatchesOf A resume_text) (sectionAnalyses A resume_text)
        (atsOf A resume_text).1).map fun recommendations =>
      resultDict A resume_text file_id best_match recommendations

/-! ## The `/analyze` endpoint after text extraction (app.py lines 82-109) -/

/-- A response of the `/analyze` endpoint: an error JSON or a success JSON
carrying the analysis dict. -/
inductive AnalyzeResponse where
  | error : String → AnalyzeResponse
  | success : List (String × PyValue) → AnalyzeResponse
deriving DecidableEq

/-- The endpoint body from the point where `resume_text` has been extracted
(app.py lines 82-105): an empty (falsy) `resume_text` is rejected with an
error response before any analysis runs; otherwise the analysis dict is
returned.  `none` models the generic `except` branch of lines 107-109. -/
def analyze_resume_after_extraction (A : AnalyzerFuns) (resume_text file_id : String) :
    Option AnalyzeResponse :=
  if resume_text = "" then some (AnalyzeResponse.error "Could not extract text from the file")
  else (perform_comprehensive_analysis A resume_text file_id).map AnalyzeResponse.success

/-- Modelled from the spec: a small concrete analyzer used to instantiate the
quantified theorems at a concrete input (two declared job profiles, empty
keyword report on empty text, as spec §4.3-§4.4 require). -/
def demoAnalyzer : AnalyzerFuns where
  parse_resume_sections _ := [("experience", "built things"), ("skills", "Python, AWS")]
  analyze_technical_keywords t := if t = "" then [] else [("languages", ["python"])]
  calculate_job_profile_match _ _ :=
    [("Software Engineer",
      { score := 60, matched_required := ["python"], missing_required := ["sql"],
        matched_preferred := [], missing_preferred := ["docker"] }),
     ("Data Scientist",
      { score := 40, matched_required := [], missing_required := ["python", "r"],
        matched_preferred := [], missing_preferred := ["spark"] })]
  calculate_comprehensive_ats_score _ _ _ :=
    (62, [("keyword_density", 20), ("section_completeness", 22), ("job_alignment", 20)])
  analyze_section_details _ _ := { issues := [], improvement_priority := "LOW" }

/-! ## Rounding lemmas -/

theorem pyRoundInt_intCast (n : ℤ) : pyRoundInt (n : ℚ) = n := by
  unfold pyRoundInt
  rw [Int.floor_intCast, sub_self]
  norm_num

theorem pyRoundInt_add_150 (x : ℚ) : pyRoundInt (x + 150) = pyRoundInt x + 150 := by
  unfold pyRoundInt
  have hfl : ⌊x + (150 : ℚ)⌋ = ⌊x⌋ + 150 := by
    exact_mod_cast Int.floor_add_int x (150 : ℤ)
  rw [hfl]
  have hfrac : x + 150 - ((⌊x⌋ + 150 : ℤ) : ℚ) = x - (⌊x⌋ : ℚ) := by
    push_cast
    ring
  rw [hfrac]
  split_ifs <;> omega

theorem pyRoundInt_le_of_le {x : ℚ} {n : ℤ} (h : x ≤ (n : ℚ)) : pyRoundInt x ≤ n := by
  have hf : ⌊x⌋ ≤ n := by
    have h1 : ⌊x⌋ ≤ ⌊(n : ℚ)⌋ := Int.floor_le_floor h
    rwa [Int.floor_intCast] at h1
  unfold pyRoundInt
  split_ifs with h1 h2 h3
  · exact hf
  · have hx : (⌊x⌋ : ℚ) < x := by
      have hge : (1 : ℚ)/2 ≤ x - (⌊x⌋ : ℚ) := not_lt.mp h1
      linarith
    have hlt : ⌊x⌋ < n := by exact_mod_cast lt_of_lt_of_le hx h
    omega
  · exact hf
  · have hx : (⌊x⌋ : ℚ) < x := by
      have hge : (1 : ℚ)/2 ≤ x - (⌊x⌋ : ℚ) := not_lt.mp h1
      linarith
    have hlt : ⌊x⌋ < n := by exact_mod_cast lt_of_lt_of_le hx h
    omega

theorem le_pyRoundInt_of_le {x : ℚ} {n : ℤ} (h : (n : ℚ) ≤ x) : n ≤ pyRoundInt x := by
  have hf : n ≤ ⌊x⌋ := Int.le_floor.mpr h
  unfold pyRoundInt
  split_ifs <;> omega

/-- Rounding to one decimal commutes with the improvement-potential formula:
`round(min(s + 15, 95), 1) = min(round(s, 1) + 15, 95)`. -/
theorem pyRound1_min15_95 (s : ℚ) :
    pyRound1 (min (s + 15) 95) = min (pyRound1 s + 15) 95 := by
  unfold pyRound1
  rcases le_total (s + 15) 95 with h | h
  · rw [min_eq_left h]
    have h1 : (10 : ℚ) * (s + 15) = 10 * s + 150 := by ring
    rw [h1, pyRoundInt_add_150]
    have hR : pyRoundInt (10 * s) ≤ 800 := by
      apply pyRoundInt_le_of_le
      push_cast
      linarith
    rw [min_eq_left]
    · push_cast
      ring
    · have hq : (pyRoundInt (10 * s) : ℚ) ≤ 800 := by exact_mod_cast hR
      linarith
  · rw [min_eq_right h]
    have h95 : pyRoundInt ((10 : ℚ) * 95) = 950 := by
      have hc : ((10 : ℚ) * 95) = ((950 : ℤ) : ℚ) := by norm_num
      rw [hc, pyRoundInt_intCast]
    rw [h95]
    have hR : (800 : ℤ) ≤ pyRoundInt (10 * s) := by
      apply le_pyRoundInt_of_le
      push_cast
      linarith
    rw [min_eq_right]
    · norm_num
    · have hq : (800 : ℚ) ≤ (pyRoundInt (10 * s) : ℚ) := by exact_mod_cast hR
      linarith

/-! ## Python `max` returns the first maximal element -/

theorem domAll_eq_true_iff {α : Type _} (k : α → ℚ) (l : List α) (p : α) :
    domAll k l p = true ↔ ∀ q ∈ l, k q ≤ k p := by
  simp [domAll, List.all_eq_true]

theorem find_congr_on {α : Type _} (p q : α → Bool) :
    ∀ l : List α, (∀ x ∈ l, p x = q x) → l.find? p = l.find? q := by
  intro l
  induction l with
  | nil => intro _; rfl
  | cons x xs ih =>
    intro h
    have hx : p x = q x := h x (List.mem_cons_self x xs)
    cases hqx : q x with
    | false =>
      rw [List.find?_cons_of_neg _ (by simp [hx, hqx]), List.find?_cons_of_neg _ (by simp [hqx])]
      exact ih (fun y hy => h y (List.mem_cons_of_mem x hy))
    | true =>
      rw [List.find?_cons_of_pos _ (by simp [hx, hqx]), List.find?_cons_of_pos _ (by simp [hqx])]

theorem foldl_pyMax_eq {α : Type _} (k : α → ℚ) :
    ∀ (xs : List α) (b : α), some (xs.foldl (pyMaxStep k) b) = firstMaxBy k (b :: xs) := by
  intro xs
  induction xs with
  | nil =>
    intro b
    unfold firstMaxBy
    rw [List.find?_cons_of_pos _ (by simp [domAll])]
    rfl
  | cons y ys ih =>
    intro b
    rw [List.foldl_cons]
    by_cases hby : k b < k y
    · have hstep : pyMaxStep k b y = y := by simp [pyMaxStep, hby]
      rw [hstep, ih y]
      unfold firstMaxBy
      have hb : ¬ domAll k (b :: y :: ys) b = true := by
        rw [domAll_eq_true_iff]
        intro hc
        exact absurd (hc y (by simp)) (not_le.mpr hby)
      rw [List.find?_cons_of_neg _ hb]
      apply find_congr_on
      intro p _
      by_cases hyp : k y ≤ k p
      · have hbp : k b ≤ k p := le_of_lt (lt_of_lt_of_le hby hyp)
        simp [domAll, hyp, hbp]
      · simp [domAll, hyp]
    · have hyb : k y ≤ k b := not_lt.mp hby
      have hstep : pyMaxStep k b y = b := by simp [pyMaxStep, hby]
      rw [hstep, ih b]
      unfold firstMaxBy
      have hpred : ∀ p, domAll k (b :: ys) p = domAll k (b :: y :: ys) p := by
        intro p
        by_cases hbp : k b ≤ k p
        · have hyp : k y ≤ k p := le_trans hyb hbp
          simp [domAll, hbp, hyp]
        · simp [domAll, hbp]
      by_cases hb : domAll k (b :: ys) b = true
      · rw [List.find?_cons_of_pos _ hb, List.find?_cons_of_pos _ ((hpred b) ▸ hb)]
      · have hb' : ¬ domAll k (b :: y :: ys) b = true := fun hc => hb ((hpred b).trans hc ▸ rfl)
        have hy' : ¬ domAll k (b :: y :: ys) y = true := by
          intro hc
          apply hb
          rw [domAll_eq_true_iff] at hc ⊢
          intro q hq
          rcases List.mem_cons.mp hq with rfl | hq'
          · exact le_refl (k q)
          · exact le_trans (hc q (by simp [hq'])) hyb
        rw [List.find?_cons_of_neg _ hb, List.find?_cons_of_neg _ hb',
          List.find?_cons_of_neg _ hy']
        exact find_congr_on _ _ ys (fun p _ => hpred p)

theorem pyMaxBy_eq_firstMaxBy {α : Type _} (k : α → ℚ) (l : List α) :
    pyMaxBy k l = firstMaxBy k l := by
  cases l with
  | nil => rfl
  | cons x xs => simpa [pyMaxBy] using foldl_pyMax_eq k xs x

theorem pyMaxBy_cons (k : α → ℚ) (x : α) (xs : List α) :
    pyMaxBy k (x :: xs) = some (xs.foldl (pyMaxStep k) x) := rfl

/-! ## Inversion helpers for the two analysis functions -/

theorem generate_recommendations_eq_some {jm : List (String × JobMatchData)}
    {sa : List (String × SectionAnalysisData)} {s : ℚ} {bm : String × JobMatchData}
    (h : pyMaxBy (fun x => x.2.score) jm = some bm) :
    generate_recommendations jm sa s = some (buildRecommendations bm.2 sa s) := by
  unfold generate_recommendations
  rw [h]
  rfl

theorem generate_recommendations_some_elim {jm : List (String × JobMatchData)}
    {sa : List (String × SectionAnalysisData)} {s : ℚ} {r : Recommendations}
    (h : generate_recommendations jm sa s = some r) :
    ∃ bm, pyMaxBy (fun x => x.2.score) jm = some bm ∧ r = buildRecommendations bm.2 sa s := by
  cases hmax : pyMaxBy (fun x => x.2.score) jm with
  | none =>
    unfold generate_recommendations at h
    rw [hmax] at h
    simp at h
  | some bm =>
    rw [generate_recommendations_eq_some hmax] at h
    exact ⟨bm, rfl, (Option.some.inj h).symm⟩

theorem perform_eq_some {A : AnalyzerFuns} {t fid : String} {bm : String × JobMatchData}
    (h : pyMaxBy (fun x => x.2.score) (jobMatchesOf A t) = some bm) :
    perform_comprehensive_analysis A t fid =
      some (resultDict A t fid bm
        (buildRecommendations bm.2 (sectionAnalyses A t) (atsOf A t).1)) := by
  unfold perform_comprehensive_analysis
  rw [h, generate_recommendations_eq_some h]
  rfl

theorem perform_some_elim {A : AnalyzerFuns} {t fid : String} {d : List (String × PyValue)}
    (h : perform_comprehensive_analysis A t fid = some d) :
    ∃ bm, pyMaxBy (fun x => x.2.score) (jobMatchesOf A t) = some bm ∧
      d = resultDict A t fid bm
        (buildRecommendations bm.2 (sectionAnalyses A t) (atsOf A t).1) := by
  cases hmax : pyMaxBy (fun x => x.2.score) (jobMatchesOf A t) with
  | none =>
    unfold perform_comprehensive_analysis at h
    rw [hmax] at h
    simp at h
  | some bm =>
    rw [perform_eq_some hmax] at h
    exact ⟨bm, rfl, (Option.some.inj h).symm⟩

/-! ## String facts used for bucket-membership reasoning -/

theorem string_data_append (s t : String) : (s ++ t).data = s.data ++ t.data := rfl

theorem density_msg_ne_preferred (x : String) :
    "⚡ Increase technical keyword density throughout resume" ≠
      "⭐ Consider adding preferred keywords: " ++ x := by
  intro hcontra
  have h1 := congrArg (fun s : String => s.data.take 1) hcontra
  dsimp only at h1
  rw [string_data_append, List.take_append_eq_append_take] at h1
  have h2 : 1 - ("⭐ Consider adding preferred keywords: ").data.length = 0 := by decide
  rw [h2, List.take_zero, List.append_nil] at h1
  exact absurd h1 (by decide)

theorem take_data_append_of_le (s t : String) (n : Nat) (h : n ≤ s.data.length) :
    (s ++ t).data.take n = s.data.take n := by
  rw [string_data_append, List.take_append_eq_append_take, Nat.sub_eq_zero_of_le h,
    List.take_zero, List.append_nil]

theorem missing_msg_ne_fix_msg (bmd : JobMatchData) (y z : String) :
    missingRequiredMsg bmd ≠ "🚨 Fix " ++ y ++ " section: " ++ z := by
  intro hcontra
  have h1 := congrArg (fun s : String => s.data.take 3) hcontra
  dsimp only at h1
  unfold missingRequiredMsg at h1
  rw [take_data_append_of_le "🚨 Add missing critical keywords: "
      (String.intercalate ", " (bmd.missing_required.take 3)) 3 (by decide)] at h1
  rw [take_data_append_of_le ("🚨 Fix " ++ y ++ " section: ") z 3 (by
    rw [string_data_append, string_data_append, List.length_append, List.length_append]
    have h6 : ("🚨 Fix " : String).data.length = 6 := by decide
    omega)] at h1
  rw [take_data_append_of_le ("🚨 Fix " ++ y) " section: " 3 (by
    rw [string_data_append, List.length_append]
    have h6 : ("🚨 Fix " : String).data.length = 6 := by decide
    omega)] at h1
  rw [take_data_append_of_le "🚨 Fix " y 3 (by decide)] at h1
  exact absurd h1 (by decide)

theorem option_eq_some_getD {α : Type _} (o : Option α) (d : α) (h : o.isSome = true) :
    o = some (o.getD d) := by
  cases o with
  | none => simp at h
  | some a => rfl

/-! ## Claim theorems -/

/-- C9: `allowed_file` returns `true` exactly when the filename contains a
`'.'` and the substring after the last `'.'`, lowercased, is `pdf` or `txt`;
in particular a dotless filename is rejected and uppercase extensions such as
`PDF` and `TXT` are accepted. -/
theorem allowed_file_characterization :
    (∀ f : String, allowed_file f = true ↔ allowedFileClaim f) ∧
      allowed_file "resume" = false ∧
      allowed_file "resume.PDF" = true ∧
      allowed_file "resume.TXT" = true := by
  refine ⟨fun f => ?_, by decide, by decide, by decide⟩
  unfold allowed_file allowedFileClaim ALLOWED_EXTENSIONS
  constructor
  · intro h
    rw [Bool.and_eq_true] at h
    refine ⟨h.1, ?_⟩
    have h2 := h.2
    simp at h2
    exact h2
  · intro h
    rw [Bool.and_eq_true]
    refine ⟨h.1, ?_⟩
    simp
    exact h.2

theorem allowed_file_characterization_witness : allowed_file "cv.pdf" = true :=
  (allowed_file_characterization.1 "cv.pdf").mpr ⟨by decide, Or.inl (by decide)⟩

/-- C7: `generate_recommendations` is a pure, deterministic function of exactly
`(job_matches, section_analyses, ats_score)`: equal inputs yield equal buckets.
(In this embedding the function is definable with no reference to any other
state, which is how the source reads: it touches only its three arguments.) -/
theorem generate_recommendations_deterministic
    (jm jm' : List (String × JobMatchData)) (sa sa' : List (String × SectionAnalysisData))
    (s s' : ℚ) (hjm : jm = jm') (hsa : sa = sa') (hs : s = s') :
    generate_recommendations jm sa s = generate_recommendations jm' sa' s' := by
  subst hjm hsa hs
  rfl

theorem generate_recommendations_deterministic_witness :
    generate_recommendations [] [] 0 = generate_recommendations [] [] 0 :=
  generate_recommendations_deterministic [] [] [] [] 0 0 rfl rfl rfl

/-- C6: the keyword-density warning is in the `high` bucket iff
`ats_score < 70`. -/
theorem density_warning_iff (jm : List (String × JobMatchData))
    (sa : List (String × SectionAnalysisData)) (s : ℚ) (r : Recommendations)
    (h : generate_recommendations jm sa s = some r) :
    ("⚡ Increase technical keyword density throughout resume" ∈ r.high ↔ s < 70) := by
  obtain ⟨bm, hmax, rfl⟩ := generate_recommendations_some_elim h
  constructor
  · intro hmem
    by_contra hs
    by_cases hmp : bm.2.missing_preferred = []
    · simp only [buildRecommendations, if_neg hs, if_pos hmp, List.nil_append,
        List.append_nil] at hmem
      exact absurd hmem (by decide)
    · simp only [buildRecommendations, if_neg hs, if_neg hmp, List.nil_append] at hmem
      rw [List.mem_append] at hmem
      rcases hmem with h1 | h1
      · exact absurd h1 (by decide)
      · rw [List.mem_singleton] at h1
        exact density_msg_ne_preferred _ h1
  · intro hs
    simp [buildRecommendations, if_pos hs]

theorem density_warning_iff_witness :
    "⚡ Increase technical keyword density throughout resume" ∈
      ((generate_recommendations
          [("SE", { score := 50, matched_required := [], missing_required := [],
                    matched_preferred := [], missing_preferred := [] })]
          [] 50).getD ⟨[], [], []⟩).high := by
  have h := density_warning_iff
      [("SE", { score := 50, matched_required := [], missing_required := [],
                matched_preferred := [], missing_preferred := [] })]
      [] 50
      ((generate_recommendations
          [("SE", { score := 50, matched_required := [], missing_required := [],
                    matched_preferred := [], missing_preferred := [] })]
          [] 50).getD ⟨[], [], []⟩) rfl
  exact h.mpr (by norm_num)

/-- C4 (counterexample): two section-analyses mappings with the same entries in
different insertion orders produce differently-ordered critical buckets, so the
per-section CRITICAL messages follow the mapping's iteration order, not a
fixed canonical section ordering. -/
theorem critical_order_counterexample :
    generate_recommendations
        [("SE", { score := 50, matched_required := [], missing_required := [],
                  matched_preferred := [], missing_preferred := [] })]
        [("education", { issues := ["🚨 CRITICAL: Education section is missing"],
                         improvement_priority := "CRITICAL" }),
         ("experience", { issues := ["🚨 CRITICAL: Experience section is missing"],
                          improvement_priority := "CRITICAL" })]
        80 ≠
      generate_recommendations
        [("SE", { score := 50, matched_required := [], missing_required := [],
                  matched_preferred := [], missing_preferred := [] })]
        [("experience", { issues := ["🚨 CRITICAL: Experience section is missing"],
                          improvement_priority := "CRITICAL" }),
         ("education", { issues := ["🚨 CRITICAL: Education section is missing"],
                         improvement_priority := "CRITICAL" })]
        80 := by decide

/-- C4 (amended): the critical bucket is the missing-required-keywords message
(present exactly when the best match has missing required keywords) followed by
one message per section whose priority is CRITICAL and whose issues list is
non-empty, in the iteration (insertion) order of the section-analyses mapping
— not in a fixed canonical section ordering. -/
theorem critical_bucket_order (jm : List (String × JobMatchData))
    (sa : List (String × SectionAnalysisData)) (s : ℚ) (bm : String × JobMatchData)
    (r : Recommendations)
    (hmax : pyMaxBy (fun x => x.2.score) jm = some bm)
    (h : generate_recommendations jm sa s = some r) :
    r.critical = (if bm.2.missing_required = [] then [] else [missingRequiredMsg bm.2]) ++
      sa.filterMap sectionCriticalMsg := by
  obtain ⟨bm', hmax', rfl⟩ := generate_recommendations_some_elim h
  rw [hmax] at hmax'
  obtain rfl : bm = bm' := Option.some.inj hmax'
  rfl

theorem critical_bucket_order_witness :
    ((generate_recommendations
        [("SE", { score := 50, matched_required := [], missing_required := ["sql"],
                  matched_preferred := [], missing_preferred := [] })]
        [("experience", { issues := ["🚨 CRITICAL: Experience section is missing"],
                          improvement_priority := "CRITICAL" })]
        80).getD ⟨[], [], []⟩).critical =
      ["🚨 Add missing critical keywords: sql",
       "🚨 Fix experience section: Experience section is missing"] := by
  have h := critical_bucket_order
      [("SE", { score := 50, matched_required := [], missing_required := ["sql"],
                matched_preferred := [], missing_preferred := [] })]
      [("experience", { issues := ["🚨 CRITICAL: Experience section is missing"],
                        improvement_priority := "CRITICAL" })]
      80
      ("SE", { score := 50, matched_required := [], missing_required := ["sql"],
               matched_preferred := [], missing_preferred := [] })
      ((generate_recommendations
          [("SE", { score := 50, matched_required := [], missing_required := ["sql"],
                    matched_preferred := [], missing_preferred := [] })]
          [("experience", { issues := ["🚨 CRITICAL: Experience section is missing"],
                            improvement_priority := "CRITICAL" })]
          80).getD ⟨[], [], []⟩)
      rfl rfl
  rw [h]
  decide

/-- C5 (counterexample): when the best match has missing required keywords, the
absent-experience CRITICAL fix message is not at index 0 of the critical
bucket: the missing-keywords message precedes it. -/
theorem experience_first_counterexample :
    (generate_recommendations
        [("SE", { score := 50, matched_required := [], missing_required := ["SQL"],
                  matched_preferred := [], missing_preferred := [] })]
        [("experience", { issues := ["🚨 CRITICAL: Missing experience section"],
                          improvement_priority := "CRITICAL" })]
        50).map (fun r => r.critical) =
      some ["🚨 Add missing critical keywords: SQL",
            "🚨 Fix experience section: Missing experience section"] ∧
    "🚨 Add missing critical keywords: SQL" ≠
      "🚨 Fix experience section: Missing experience section" :=
  ⟨by decide, by decide⟩

/-- C5 (amended): wherever the experience entry sits in the section-analyses
mapping, its CRITICAL fix message is emitted after the missing-required-keywords
message (if any) and after the critical messages of sections earlier in
iteration order, and before those of later sections; it is at index 0 of the
critical bucket when the best match has no missing required keywords and no
earlier section contributes a critical message (earlier LOW or issue-free
sections included), while with missing required keywords index 0 holds the
missing-keywords message, which differs from the fix message. -/
theorem experience_critical_first (jm : List (String × JobMatchData)) (s : ℚ)
    (bm : String × JobMatchData) (a : SectionAnalysisData)
    (pre rest : List (String × SectionAnalysisData)) (r : Recommendations)
    (i : String) (is' : List String)
    (hmax : pyMaxBy (fun x => x.2.score) jm = some bm)
    (hp : a.improvement_priority = "CRITICAL")
    (hi : a.issues = i :: is')
    (h : generate_recommendations jm (pre ++ ("experience", a) :: rest) s = some r) :
    r.critical =
      (if bm.2.missing_required = [] then [] else [missingRequiredMsg bm.2]) ++
        (pre.filterMap sectionCriticalMsg ++
          ("🚨 Fix " ++ "experience" ++ " section: " ++ stripCriticalLabel i) ::
            rest.filterMap sectionCriticalMsg) ∧
    (bm.2.missing_required = [] → (∀ p ∈ pre, sectionCriticalMsg p = none) →
      r.critical.head? =
        some ("🚨 Fix " ++ "experience" ++ " section: " ++ stripCriticalLabel i)) ∧
    (bm.2.missing_required ≠ [] →
      r.critical.head? = some (missingRequiredMsg bm.2) ∧
        missingRequiredMsg bm.2 ≠
          "🚨 Fix " ++ "experience" ++ " section: " ++ stripCriticalLabel i) := by
  obtain ⟨bm', hmax', rfl⟩ := generate_recommendations_some_elim h
  rw [hmax] at hmax'
  obtain rfl : bm = bm' := Option.some.inj hmax'
  have hmsg : sectionCriticalMsg ("experience", a) =
      some ("🚨 Fix " ++ "experience" ++ " section: " ++ stripCriticalLabel i) := by
    simp [sectionCriticalMsg, hp, hi]
  have hcrit : (buildRecommendations bm.2 (pre ++ ("experience", a) :: rest) s).critical =
      (if bm.2.missing_required = [] then [] else [missingRequiredMsg bm.2]) ++
        (pre.filterMap sectionCriticalMsg ++
          ("🚨 Fix " ++ "experience" ++ " section: " ++ stripCriticalLabel i) ::
            rest.filterMap sectionCriticalMsg) := by
    simp only [buildRecommendations]
    rw [List.filterMap_append, List.filterMap_cons_some hmsg]
  refine ⟨hcrit, ?_, ?_⟩
  · intro hmr hpre
    rw [hcrit, if_pos hmr, List.nil_append, List.filterMap_eq_nil_iff.mpr hpre,
      List.nil_append]
    rfl
  · intro hmr
    refine ⟨?_, missing_msg_ne_fix_msg bm.2 "experience" (stripCriticalLabel i)⟩
    rw [hcrit, if_neg hmr]
    rfl

theorem experience_critical_first_witness :
    (((generate_recommendations
        [("SE", { score := 50, matched_required := [], missing_required := [],
                  matched_preferred := [], missing_preferred := [] })]
        [("summary", { issues := [], improvement_priority := "LOW" }),
         ("experience", { issues := ["🚨 CRITICAL: Missing experience section"],
                          improvement_priority := "CRITICAL" })]
        50).getD ⟨[], [], []⟩).critical).head? =
      some "🚨 Fix experience section: Missing experience section" := by
  have h := experience_critical_first
      [("SE", { score := 50, matched_required := [], missing_required := [],
                matched_preferred := [], missing_preferred := [] })]
      50
      ("SE", { score := 50, matched_required := [], missing_required := [],
               matched_preferred := [], missing_preferred := [] })
      { issues := ["🚨 CRITICAL: Missing experience section"],
        improvement_priority := "CRITICAL" }
      [("summary", { issues := [], improvement_priority := "LOW" })]
      []
      ((generate_recommendations
          [("SE", { score := 50, matched_required := [], missing_required := [],
                    matched_preferred := [], missing_preferred := [] })]
          [("summary", { issues := [], improvement_priority := "LOW" }),
           ("experience", { issues := ["🚨 CRITICAL: Missing experience section"],
                            improvement_priority := "CRITICAL" })]
          50).getD ⟨[], [], []⟩)
      "🚨 CRITICAL: Missing experience section" []
      (by rw [pyMaxBy_cons]; rfl)
      rfl rfl
      (option_eq_some_getD _ ⟨[], [], []⟩ (by decide))
  have h2 := h.2.1 rfl (by decide)
  rw [h2]
  decide

/-- C10: with a non-empty `job_matches` the `max`-based best-match selection is
defined and both functions return a result; with an empty `job_matches` both
`generate_recommendations` and `perform_comprehensive_analysis` fault (the
`ValueError` of `max`, modelled as `none`) before producing any result. -/
theorem job_profiles_needed (A : AnalyzerFuns) (t fid : String)
    (jm : List (String × JobMatchData)) (sa : List (String × SectionAnalysisData)) (s : ℚ) :
    (jm ≠ [] → (generate_recommendations jm sa s).isSome = true) ∧
    (jm = [] → generate_recommendations jm sa s = none) ∧
    (jobMatchesOf A t ≠ [] → (perform_comprehensive_analysis A t fid).isSome = true) ∧
    (jobMatchesOf A t = [] → perform_comprehensive_analysis A t fid = none) := by
  refine ⟨?_, ?_, ?_, ?_⟩
  · intro hne
    cases jm with
    | nil => exact absurd rfl hne
    | cons x xs =>
      rw [generate_recommendations_eq_some (pyMaxBy_cons _ x xs)]
      rfl
  · intro he
    subst he
    rfl
  · intro hne
    cases hjm : jobMatchesOf A t with
    | nil => exact absurd hjm hne
    | cons x xs =>
      have hmax : pyMaxBy (fun p => p.2.score) (jobMatchesOf A t) =
          some (xs.foldl (pyMaxStep (fun p => p.2.score)) x) := by
        rw [hjm, pyMaxBy_cons]
      rw [perform_eq_some hmax]
      rfl
  · intro he
    unfold perform_comprehensive_analysis
    rw [he]
    rfl

theorem job_profiles_needed_witness :
    (generate_recommendations
        [("SE", { score := 10, matched_required := [], missing_required := [],
                  matched_preferred := [], missing_preferred := [] })] [] 0).isSome = true ∧
      generate_recommendations ([] : List (String × JobMatchData)) [] 0 = none :=
  ⟨(job_profiles_needed demoAnalyzer "t" "f"
      [("SE", { score := 10, matched_required := [], missing_required := [],
                matched_preferred := [], missing_preferred := [] })] [] 0).1 (by decide),
   (job_profiles_needed demoAnalyzer "t" "f" [] [] 0).2.1 rfl⟩

/-- C2: the analysis result dict has exactly the twelve documented top-level
keys, in the order the source constructs them. -/
theorem result_keys (A : AnalyzerFuns) (t fid : String) (d : List (String × PyValue))
    (h : perform_comprehensive_analysis A t fid = some d) :
    d.map Prod.fst =
      ["report_id", "ats_score", "best_job_match", "match_percentage",
       "tech_keywords_found", "improvement_potential", "total_words", "job_matches",
       "sections", "score_breakdown", "recommendations", "tech_keywords"] := by
  obtain ⟨bm, hmax, rfl⟩ := perform_some_elim h
  rfl

theorem result_keys_witness :
    ((perform_comprehensive_analysis demoAnalyzer "hello" "id").getD []).map Prod.fst =
      ["report_id", "ats_score", "best_job_match", "match_percentage",
       "tech_keywords_found", "improvement_potential", "total_words", "job_matches",
       "sections", "score_breakdown", "recommendations", "tech_keywords"] :=
  result_keys demoAnalyzer "hello" "id" _
    (option_eq_some_getD _ [] (by decide))

/-- C3: `best_job_match` is the name of the first job profile (in the
mapping's iteration order, which models declaration order) attaining the
maximal match score: Python's `max` with first-wins tie-break, characterized
by `firstMaxBy`.  As a function of its inputs the selection is deterministic. -/
theorem best_job_match_first_argmax (A : AnalyzerFuns) (t fid : String)
    (d : List (String × PyValue)) (h : perform_comprehensive_analysis A t fid = some d) :
    List.lookup "best_job_match" d =
      (firstMaxBy (fun x => x.2.score) (jobMatchesOf A t)).map (fun p => PyValue.str p.1) := by
  obtain ⟨bm, hmax, rfl⟩ := perform_some_elim h
  rw [← pyMaxBy_eq_firstMaxBy, hmax]
  simp [resultDict, List.lookup]

theorem best_job_match_first_argmax_witness :
    List.lookup "best_job_match"
        ((perform_comprehensive_analysis demoAnalyzer "hello" "id").getD []) =
      (firstMaxBy (fun x => x.2.score) (jobMatchesOf demoAnalyzer "hello")).map
        (fun p => PyValue.str p.1) :=
  best_job_match_first_argmax demoAnalyzer "hello" "id" _
    (option_eq_some_getD _ [] (by decide))

/-- C1: in every successful analysis of non-empty resume text the exposed
`improvement_potential` equals `min(ats_score + 15, 95)` computed from the
exposed (rounded) `ats_score` — the rounding of the source commutes with the
formula. -/
theorem improvement_potential_formula (A : AnalyzerFuns) (t fid : String)
    (d : List (String × PyValue))
    (_hne : t ≠ "")
    (h : perform_comprehensive_analysis A t fid = some d) :
    ∃ a : ℚ, List.lookup "ats_score" d = some (PyValue.num a) ∧
      List.lookup "improvement_potential" d = some (PyValue.num (min (a + 15) 95)) := by
  obtain ⟨bm, hmax, rfl⟩ := perform_some_elim h
  refine ⟨pyRound1 (atsOf A t).1, ?_, ?_⟩
  · simp [resultDict, List.lookup]
  · simp [resultDict, List.lookup]
    exact pyRound1_min15_95 (atsOf A t).1

theorem improvement_potential_formula_witness :
    ∃ a : ℚ,
      List.lookup "ats_score"
          ((perform_comprehensive_analysis demoAnalyzer "hello" "id").getD []) =
        some (PyValue.num a) ∧
      List.lookup "improvement_potential"
          ((perform_comprehensive_analysis demoAnalyzer "hello" "id").getD []) =
        some (PyValue.num (min (a + 15) 95)) :=
  improvement_potential_formula demoAnalyzer "hello" "id" _ (by decide)
    (option_eq_some_getD _ [] (by decide))

/-- C8 (counterexample): zero-length extracted text is rejected by the
endpoint with an error response instead of being analyzed — even though the
analysis itself would have produced a result. -/
theorem empty_input_rejected :
    analyze_resume_after_extraction demoAnalyzer "" "rid" =
      some (AnalyzeResponse.error "Could not extract text from the file") ∧
    (perform_comprehensive_analysis demoAnalyzer "" "rid").isSome = true ∧
    analyze_resume_after_extraction demoAnalyzer "" "rid" ≠
      some (AnalyzeResponse.success
        ((perform_comprehensive_analysis demoAnalyzer "" "rid").getD [])) :=
  ⟨rfl, by decide, by decide⟩

/-- C8 (amended): the endpoint rejects empty extracted text with the error
`Could not extract text from the file`; `perform_comprehensive_analysis`
itself, invoked on the empty string (with an analyzer reporting no keyword
matches on empty text), yields a fully-populated result with
`total_words = 0` and `tech_keywords_found = 0`. -/
theorem empty_input_direct_analysis (A : AnalyzerFuns) (fid : String)
    (d : List (String × PyValue))
    (htk : ∀ p ∈ A.analyze_technical_keywords "", p.2 = ([] : List String))
    (h : perform_comprehensive_analysis A "" fid = some d) :
    List.lookup "total_words" d = some (PyValue.natv 0) ∧
      List.lookup "tech_keywords_found" d = some (PyValue.natv 0) ∧
      analyze_resume_after_extraction A "" fid =
        some (AnalyzeResponse.error "Could not extract text from the file") := by
  obtain ⟨bm, hmax, rfl⟩ := perform_some_elim h
  refine ⟨?_, ?_, rfl⟩
  · simp [resultDict, List.lookup, pyWordCount, wordCountLoop]
  · simp [resultDict, List.lookup]
    apply List.sum_eq_zero
    intro x hx
    rw [List.mem_map] at hx
    obtain ⟨p, hp, rfl⟩ := hx
    rw [htk p hp]
    rfl

theorem empty_input_direct_analysis_witness :
    List.lookup "total_words"
        ((perform_comprehensive_analysis demoAnalyzer "" "rid").getD []) =
      some (PyValue.natv 0) ∧
    List.lookup "tech_keywords_found"
        ((perform_comprehensive_analysis demoAnalyzer "" "rid").getD []) =
      some (PyValue.natv 0) ∧
    analyze_resume_after_extraction demoAnalyzer "" "rid" =
      some (AnalyzeResponse.error "Could not extract text from the file") :=
  empty_input_direct_analysis demoAnalyzer "rid" _ (by decide)
    (option_eq_some_getD _ [] (by decide))
